import Mathlib

/-!
Shallow embedding of the token-based session authentication subsystem of a
Go film-catalog REST API (main.go): the `TokenStore` (generate / add /
validate / remove over a map from token string to expiry time), the
credential validator, the `requireAuth` middleware and the login handler.
Throughout, the Go map `tokens map[string]time.Time` is modelled as an
association list with unique keys, and time instants as integers
(nanoseconds, matching Go `time.Duration` arithmetic where `time.Hour`
is `3600e9` nanoseconds). Go `time.Now().After(expiry)` is strict
comparison `expiry < now`.
-/

set_option autoImplicit false

namespace FilmApi

/-- The token store's map contents: token string mapped to expiry instant.
Embeds the `tokens map[string]time.Time` field of `TokenStore`. -/
def TokenStore : Type := List (String × Int)

instance : DecidableEq TokenStore := by
  unfold TokenStore
  infer_instance

/-- Map lookup, embedding Go `expiry, exists := ts.tokens[token]`. -/
def storeLookup : TokenStore → String → Option Int
  | [], _ => none
  | p :: rest, t => if p.1 = t then some p.2 else storeLookup rest t

/-- Map key removal, embedding Go `delete(ts.tokens, token)`. -/
def storeErase : TokenStore → String → TokenStore
  | [], _ => []
  | p :: rest, t => if p.1 = t then storeErase rest t else p :: storeErase rest t

/-- Map insert-or-overwrite, embedding Go `ts.tokens[token] = expiry`. -/
def storeInsert (s : TokenStore) (t : String) (e : Int) : TokenStore :=
  (t, e) :: storeErase s t

/-- One hour in nanoseconds: Go `time.Hour`. -/
def hourNs : Int := 3600 * 1000000000

/-- The fixed token TTL: Go `24 * time.Hour` in `AddToken`. -/
def tokenTTL : Int := 24 * hourNs

/-- `TokenStore.AddToken`: stores the token with expiry `time.Now().Add(24 * time.Hour)`.
`now` is the instant `time.Now()` returns during the call. -/
def addToken (s : TokenStore) (t : String) (now : Int) : TokenStore :=
  storeInsert s t (now + tokenTTL)

/-- `TokenStore.ValidateToken`: returns false if the token is absent; if present
and `time.Now().After(expiry)` (strictly past expiry) deletes the entry and
returns false; otherwise returns true. Returns the verdict together with the
store contents after the call. -/
def validateToken (s : TokenStore) (t : String) (now : Int) : Bool × TokenStore :=
  match storeLookup s t with
  | none => (false, s)
  | some expiry =>
    if expiry < now then (false, storeErase s t)
    else (true, s)

/-- `TokenStore.RemoveToken`: unconditional delete. -/
def removeToken (s : TokenStore) (t : String) : TokenStore :=
  storeErase s t

theorem storeLookup_storeInsert_self (s : TokenStore) (t : String) (e : Int) :
    storeLookup (storeInsert s t e) t = some e := by
  simp [storeInsert, storeLookup]

theorem storeLookup_storeErase_self (s : TokenStore) (t : String) :
    storeLookup (storeErase s t) t = none := by
  induction s with
  | nil => rfl
  | cons p rest ih =>
    by_cases h : p.1 = t <;> simp [storeErase, storeLookup, h, ih]

theorem storeErase_of_lookup_none (s : TokenStore) (t : String)
    (h : storeLookup s t = none) : storeErase s t = s := by
  induction s with
  | nil => rfl
  | cons p rest ih =>
    by_cases hp : p.1 = t
    · simp [storeLookup, hp] at h
    · simp [storeLookup, hp] at h
      simp [storeErase, hp, ih h]

/-- C1: a token added at time `t0` (expiry `t0 + 24h`) validates true at any
query time in `[t0, t0 + 24h]` (the bound included, since Go `After` is
strict), and validates false at any query time strictly past `t0 + 24h`. -/
theorem validate_within_ttl (s : TokenStore) (t : String) (t0 now : Int) :
    (t0 ≤ now → now ≤ t0 + tokenTTL →
      (validateToken (addToken s t t0) t now).1 = true) ∧
    (t0 + tokenTTL < now →
      (validateToken (addToken s t t0) t now).1 = false) := by
  constructor
  · intro _ h2
    simp [validateToken, addToken, storeLookup_storeInsert_self, not_lt.mpr h2]
  · intro h
    simp [validateToken, addToken, storeLookup_storeInsert_self, h]

theorem validate_within_ttl_witness :
    ((0 : Int) ≤ 0 ∧ (0 : Int) ≤ 0 + tokenTTL ∧
      (validateToken (addToken [] "tok" 0) "tok" 0).1 = true) ∧
    (0 + tokenTTL < tokenTTL + 1 ∧
      (validateToken (addToken [] "tok" 0) "tok" (tokenTTL + 1)).1 = false) :=
  ⟨⟨le_refl 0, by simp [tokenTTL, hourNs],
    (validate_within_ttl [] "tok" 0 0).1 (le_refl 0) (by simp [tokenTTL, hourNs])⟩,
   by simp [tokenTTL, hourNs],
   (validate_within_ttl [] "tok" 0 (tokenTTL + 1)).2 (by simp [tokenTTL, hourNs])⟩

/-- C3: validating a present-but-expired token returns false and removes the
entry, so a later validation of the same token (at any time, with no
intervening add) also returns false. -/
theorem validate_expired_evicts (s : TokenStore) (t : String) (e now later : Int)
    (hfound : storeLookup s t = some e) (hexp : e < now) :
    (validateToken s t now).1 = false ∧
    storeLookup (validateToken s t now).2 t = none ∧
    (validateToken (validateToken s t now).2 t later).1 = false := by
  have h1 : validateToken s t now = (false, storeErase s t) := by
    simp [validateToken, hfound, hexp]
  refine ⟨by simp [h1], by simp [h1, storeLookup_storeErase_self], ?_⟩
  rw [h1]
  simp [validateToken, storeLookup_storeErase_self]

theorem validate_expired_evicts_witness :
    storeLookup [("tok", (5 : Int))] "tok" = some 5 ∧ (5 : Int) < 6 ∧
    ((validateToken [("tok", (5 : Int))] "tok" 6).1 = false ∧
     storeLookup (validateToken [("tok", (5 : Int))] "tok" 6).2 "tok" = none ∧
     (validateToken (validateToken [("tok", (5 : Int))] "tok" 6).2 "tok" 7).1 = false) :=
  ⟨by decide, by decide, validate_expired_evicts [("tok", 5)] "tok" 5 6 7 (by decide) (by decide)⟩

/-- C5: removing a token and then validating it always yields false, whatever
the prior store contents; and removal of an absent token leaves the store
unchanged (idempotent no-op). -/
theorem remove_then_validate_false (s : TokenStore) (t : String) (now : Int) :
    (validateToken (removeToken s t) t now).1 = false ∧
    (storeLookup s t = none → removeToken s t = s) := by
  constructor
  · simp [validateToken, removeToken, storeLookup_storeErase_self]
  · intro h
    exact storeErase_of_lookup_none s t h

theorem remove_then_validate_false_witness :
    ((validateToken (removeToken [("other", (5 : Int))] "tok") "tok" 0).1 = false ∧
     removeToken [("other", (5 : Int))] "tok" = [("other", (5 : Int))]) :=
  ⟨(remove_then_validate_false [("other", 5)] "tok" 0).1,
   (remove_then_validate_false [("other", 5)] "tok" 0).2 (by decide)⟩

/-! ### Lock discipline of the store operations

Each `TokenStore` method is also embedded as the sequence of lock and map
events it performs on the shared `tokens` map, read off the source line by
line (`mu.RLock` / `mu.Lock`, the deferred unlock, and any map write). -/

/-- An event on the shared token map: acquiring or releasing the reader or
writer side of the `sync.RWMutex`, or mutating the map. -/
inductive StoreEvent where
  | rlock | runlock | wlock | wunlock | mapDelete | mapInsert
  deriving DecidableEq, Repr

/-- The event trace of `TokenStore.ValidateToken`: `RLock`, the lookup, the
branch taken (the expired branch performs `delete(ts.tokens, token)`), then the
deferred `RUnlock`. -/
def validateTokenEvents (s : TokenStore) (t : String) (now : Int) : List StoreEvent :=
  match storeLookup s t with
  | none => [.rlock, .runlock]
  | some expiry =>
    if expiry < now then [.rlock, .mapDelete, .runlock]
    else [.rlock, .runlock]

/-- The event trace of `TokenStore.AddToken`: `Lock`, the map write, the
deferred `Unlock`. -/
def addTokenEvents : List StoreEvent :=
  [.wlock, .mapInsert, .wunlock]

/-- The event trace of `TokenStore.RemoveToken`: `Lock`, the delete, the
deferred `Unlock`. -/
def removeTokenEvents : List StoreEvent :=
  [.wlock, .mapDelete, .wunlock]

/-- Walks a trace tracking how many reader and writer acquisitions are held,
and reports whether some map mutation happens while a read lock is held and
no write lock is. -/
def writeUnderReadAux : List StoreEvent → Nat → Nat → Bool
  | [], _, _ => false
  | e :: rest, r, w =>
    match e with
    | .rlock => writeUnderReadAux rest (r + 1) w
    | .runlock => writeUnderReadAux rest (r - 1) w
    | .wlock => writeUnderReadAux rest r (w + 1)
    | .wunlock => writeUnderReadAux rest r (w - 1)
    | .mapDelete => if 0 < r ∧ w = 0 then true else writeUnderReadAux rest r w
    | .mapInsert => if 0 < r ∧ w = 0 then true else writeUnderReadAux rest r w

/-- Whether a trace mutates the map while holding only a shared read lock. -/
def writeUnderRead (evs : List StoreEvent) : Bool :=
  writeUnderReadAux evs 0 0

/-- C2: contrary to the claim, `ValidateToken` does mutate the map while
holding only the shared read lock: on a store holding token `"tok"` already
expired (expiry 0, queried at time 1), its trace performs the
`delete(ts.tokens, token)` between `RLock` and `RUnlock`. -/
theorem validate_mutates_under_read_lock :
    writeUnderRead (validateTokenEvents [("tok", (0 : Int))] "tok" 1) = true ∧
    validateTokenEvents [("tok", (0 : Int))] "tok" 1 =
      [StoreEvent.rlock, StoreEvent.mapDelete, StoreEvent.runlock] := by
  constructor <;> rfl

/-- The writing operations `AddToken` and `RemoveToken` do take the exclusive
lock: their traces never mutate under a mere read lock. -/
theorem add_remove_exclusive :
    writeUnderRead addTokenEvents = false ∧ writeUnderRead removeTokenEvents = false := by
  constructor <;> rfl

/-! ### Token generation -/

/-- The sixteen lowercase hex digits, Go's `hextable` in `encoding/hex`. -/
def hexDigitsList : List Char :=
  "0123456789abcdef".data

/-- The hex digit of a nibble value. -/
def hexDigit (n : Nat) : Char :=
  hexDigitsList.getD n '0'

/-- `encoding/hex` encoding of one byte: high nibble then low nibble. -/
def encodeByteHex (b : Nat) : List Char :=
  [hexDigit (b / 16), hexDigit (b % 16)]

/-- `hex.EncodeToString` over a byte sequence. -/
def hexEncodeToString (bs : List Nat) : String :=
  String.mk (bs.map encodeByteHex).flatten

/-- The 16-byte buffer `GenerateToken` passes to `hex.EncodeToString`:
`make([]byte, 16)` zero-initialises it, and `rand.Read` fills as many leading
bytes as the random source delivers before a (discarded) error; a healthy
source delivers all 16. `entropy` is the byte stream the source delivers. -/
def randReadBuf (entropy : List Nat) : List Nat :=
  (entropy.take 16).map (· % 256) ++ List.replicate (16 - (entropy.take 16).length) 0

/-- `TokenStore.GenerateToken`: hex-encodes 16 random bytes; reads no field of
the store and writes none, so the receiver's map is returned untouched. -/
def generateToken (s : TokenStore) (entropy : List Nat) : String × TokenStore :=
  (hexEncodeToString (randReadBuf entropy), s)

/-- C7: `GenerateToken` never modifies the store; its map is identical before
and after the call, for every store state and every random stream. -/
theorem generate_frame (s : TokenStore) (entropy : List Nat) :
    (generateToken s entropy).2 = s :=
  rfl

theorem hexDigit_contains (n : Nat) : hexDigitsList.contains (hexDigit n) = true := by
  by_cases h : n < 16
  · interval_cases n <;> decide
  · have h16 : hexDigitsList.length = 16 := by decide
    have hlen : hexDigitsList.length ≤ n := by omega
    unfold hexDigit
    rw [List.getD_eq_default _ _ hlen]
    decide

theorem randReadBuf_length (entropy : List Nat) : (randReadBuf entropy).length = 16 := by
  simp [randReadBuf, List.length_take]

theorem hexEncode_all_hex (bs : List Nat) :
    ((bs.map encodeByteHex).flatten.all fun c => hexDigitsList.contains c) = true := by
  induction bs with
  | nil => rfl
  | cons b rest ih =>
    simp only [List.map_cons, List.flatten_cons, List.all_append, ih, Bool.and_true]
    simp only [encodeByteHex, List.all_cons, List.all_nil, Bool.and_true, Bool.and_eq_true]
    constructor <;> simpa using hexDigit_contains _

theorem hexEncode_data_length (bs : List Nat) :
    (bs.map encodeByteHex).flatten.length = 2 * bs.length := by
  induction bs with
  | nil => rfl
  | cons b rest ih =>
    simp only [List.map_cons, List.flatten_cons, List.length_append, ih,
      encodeByteHex, List.length_cons, List.length_nil]
    omega

/-- C8: every value `GenerateToken` returns is a 32-character string all of
whose characters are lowercase hex digits, for every random stream. -/
theorem generate_hex32 (s : TokenStore) (entropy : List Nat) :
    (generateToken s entropy).1.length = 32 ∧
    ((generateToken s entropy).1.data.all fun c => hexDigitsList.contains c) = true := by
  constructor
  · have hlen : (randReadBuf entropy).length = 16 := randReadBuf_length entropy
    have h2 := hexEncode_data_length (randReadBuf entropy)
    show ((randReadBuf entropy).map encodeByteHex).flatten.length = 32
    omega
  · exact hexEncode_all_hex (randReadBuf entropy)

/-- C10: `GenerateToken` is total even when the random source fails after `k`
of the 16 bytes: the error is discarded and the token is the hex encoding of
the partially filled, zero-padded buffer — still 32 characters. An entirely
failed read yields the hex encoding of the all-zero buffer. -/
theorem generate_total_on_failure (s : TokenStore) (entropy : List Nat)
    (hshort : entropy.length < 16) :
    (generateToken s entropy).1.length = 32 ∧
    (generateToken s entropy).1 =
      hexEncodeToString ((entropy.map (· % 256)) ++ List.replicate (16 - entropy.length) 0) := by
  refine ⟨(generate_hex32 s entropy).1, ?_⟩
  show hexEncodeToString (randReadBuf entropy) = _
  have htake : entropy.take 16 = entropy := List.take_of_length_le (by omega)
  simp [randReadBuf, htake]

theorem generate_total_on_failure_witness :
    ([] : List Nat).length < 16 ∧
    (generateToken [] []).1.length = 32 ∧
    (generateToken [] []).1 = "00000000000000000000000000000000" :=
  ⟨by decide, (generate_total_on_failure [] [] (by decide)).1, by
    have h := (generate_total_on_failure [] [] (by decide)).2
    rw [h]
    rfl⟩

/-! ### Authentication middleware -/

/-- Splitter for `strings.Split(s, " ")`: cuts around every single space,
keeping empty fields. `acc` holds the current field's characters reversed. -/
def splitSpaceAux : List Char → List Char → List String
  | [], acc => [String.mk acc.reverse]
  | c :: rest, acc =>
    if c = ' ' then String.mk acc.reverse :: splitSpaceAux rest []
    else splitSpaceAux rest (c :: acc)

/-- Go `strings.Split(s, " ")`. -/
def splitSpace (s : String) : List String :=
  splitSpaceAux s.data []

/-- The `requireAuth` middleware's check on the header shape: Go
`len(parts) == 2 && parts[0] == "Bearer"` over `parts := strings.Split(authHeader, " ")`
(the source tests the negation and rejects). -/
def headerFormatOk (h : String) : Bool :=
  decide ((splitSpace h).length = 2) && decide ((splitSpace h).headD "" = "Bearer")

/-- The bearer token the middleware extracts: Go `token := parts[1]`. -/
def headerToken (h : String) : String :=
  (splitSpace h).getD 1 ""

/-- The terminal state of one request passing through `requireAuth`: the CORS
preflight short-circuit, one of the three 401 rejections (`http.Error` with
`StatusUnauthorized`), or delegation to the wrapped handler. -/
inductive AuthOutcome where
  | preflight
  | unauthorizedMissing
  | unauthorizedMalformed
  | unauthorizedInvalid
  | delegated
  deriving DecidableEq, Repr

/-- Whether an outcome is one of the middleware's 401 responses. -/
def isUnauthorized : AuthOutcome → Bool
  | .unauthorizedMissing => true
  | .unauthorizedMalformed => true
  | .unauthorizedInvalid => true
  | _ => false

/-- The `requireAuth` middleware: CORS preflight short-circuit on method
`OPTIONS`; 401 on missing `Authorization` header (Go `Header.Get` yields `""`
when absent); 401 on a header that is not exactly two space-separated parts
with the first literally `"Bearer"`; otherwise consult
`TokenStore.ValidateToken` on the second part, 401 on failure, and delegate on
success. Also returns the store contents after the call (validation may have
evicted an expired entry). -/
def requireAuth (method authHeader : String) (s : TokenStore) (now : Int) :
    AuthOutcome × TokenStore :=
  if method = "OPTIONS" then (.preflight, s)
  else if authHeader = "" then (.unauthorizedMissing, s)
  else if headerFormatOk authHeader = false then (.unauthorizedMalformed, s)
  else
    let r := validateToken s (headerToken authHeader) now
    if r.1 = false then (.unauthorizedInvalid, r.2)
    else (.delegated, r.2)

/-- All three middleware checks: header present, well-formed, token valid. -/
def authChecksPass (h : String) (s : TokenStore) (now : Int) : Bool :=
  decide (h ≠ "") && headerFormatOk h && (validateToken s (headerToken h) now).1

/-- C4 (counterexample): as stated, the claim fails on the CORS preflight
path: an `OPTIONS` request with a missing `Authorization` header is
short-circuited with an empty success response, not a 401 rejection. -/
theorem requireAuth_options_counterexample :
    (requireAuth "OPTIONS" "" [] 0).1 = AuthOutcome.preflight ∧
    isUnauthorized (requireAuth "OPTIONS" "" [] 0).1 = false := by
  constructor <;> rfl

/-- C4 (amended to non-preflight requests): for every request whose method is
not `OPTIONS`, the wrapped handler is invoked exactly when the header is
present, well-formed (`Bearer` plus one part), and the token validates; in
every other case the middleware answers with one of its 401 rejections. -/
theorem requireAuth_gate (method h : String) (s : TokenStore) (now : Int)
    (hm : method ≠ "OPTIONS") :
    ((requireAuth method h s now).1 = AuthOutcome.delegated ↔
      authChecksPass h s now = true) ∧
    ((requireAuth method h s now).1 ≠ AuthOutcome.delegated →
      isUnauthorized (requireAuth method h s now).1 = true) := by
  by_cases hh : h = ""
  · subst hh
    simp [requireAuth, authChecksPass, hm, isUnauthorized]
  · cases hf : headerFormatOk h with
    | false => simp [requireAuth, authChecksPass, hm, hh, hf, isUnauthorized]
    | true =>
      cases hv : (validateToken s (headerToken h) now).1 with
      | false => simp [requireAuth, authChecksPass, hm, hh, hf, hv, isUnauthorized]
      | true => simp [requireAuth, authChecksPass, hm, hh, hf, hv, isUnauthorized]

theorem requireAuth_gate_witness :
    "GET" ≠ "OPTIONS" ∧
    (((requireAuth "GET" "Bearer tok" [("tok", (10 : Int))] 0).1 = AuthOutcome.delegated ↔
       authChecksPass "Bearer tok" [("tok", (10 : Int))] 0 = true) ∧
     ((requireAuth "GET" "Bearer tok" [("tok", (10 : Int))] 0).1 ≠ AuthOutcome.delegated →
       isUnauthorized (requireAuth "GET" "Bearer tok" [("tok", (10 : Int))] 0).1 = true)) :=
  ⟨by decide, requireAuth_gate "GET" "Bearer tok" [("tok", 10)] 0 (by decide)⟩

/-- C9: the header `"Bearer "` (scheme, one space, empty token) passes the
format check — it splits into exactly the two parts `["Bearer", ""]` — so the
middleware looks the empty string up in the store, and when that validation
fails the rejection is the invalid-or-expired-token one, not the
malformed-header one. -/
theorem requireAuth_bearer_empty (method : String) (s : TokenStore) (now : Int)
    (hm : method ≠ "OPTIONS") :
    headerFormatOk "Bearer " = true ∧
    headerToken "Bearer " = "" ∧
    ((validateToken s "" now).1 = false →
      (requireAuth method "Bearer " s now).1 = AuthOutcome.unauthorizedInvalid) := by
  refine ⟨by decide, by decide, ?_⟩
  intro hv
  have htok : headerToken "Bearer " = "" := by decide
  have hfmt : headerFormatOk "Bearer " = true := by decide
  have hne : ("Bearer " : String) ≠ "" := by decide
  simp [requireAuth, hm, htok, hfmt, hne, hv]

theorem requireAuth_bearer_empty_witness :
    "GET" ≠ "OPTIONS" ∧
    (headerFormatOk "Bearer " = true ∧
     headerToken "Bearer " = "" ∧
     ((validateToken [] "" 0).1 = false →
       (requireAuth "GET" "Bearer " [] 0).1 = AuthOutcome.unauthorizedInvalid)) :=
  ⟨by decide, requireAuth_bearer_empty "GET" [] 0 (by decide)⟩

/-! ### Credential validation and the login handler -/

/-- A user record from the externally supplied registry. -/
structure UserCred where
  username : String
  password : String
  deriving DecidableEq, Repr

/-- `validateUser`: linear scan over the registry, true exactly when some entry
matches both fields by exact string equality. -/
def validateUser : List UserCred → String → String → Bool
  | [], _, _ => false
  | u :: rest, username, password =>
    if u.username = username ∧ u.password = password then true
    else validateUser rest username password

/-- The decoded login request payload. -/
structure LoginRequest where
  username : String
  password : String
  deriving DecidableEq, Repr

/-- The observable outcome of `loginHandler`: HTTP status, the token in the
response body (if any), and the token store contents after the call. -/
structure LoginResult where
  status : Nat
  respToken : Option String
  store : TokenStore
  deriving DecidableEq

/-- `loginHandler`: `OPTIONS` short-circuit; 405 on non-POST; 400 on an
undecodable body; 400 on an empty username or password; 401 on failed
credential validation; on success, generate a token, register it (expiry
`now + 24h`), and return it with status 200. `body` is `none` when the JSON
decoder fails. -/
def loginHandler (method : String) (body : Option LoginRequest)
    (users : List UserCred) (s : TokenStore) (entropy : List Nat) (now : Int) :
    LoginResult :=
  if method = "OPTIONS" then ⟨200, none, s⟩
  else if method ≠ "POST" then ⟨405, none, s⟩
  else
    match body with
    | none => ⟨400, none, s⟩
    | some req =>
      if req.username = "" ∨ req.password = "" then ⟨400, none, s⟩
      else if validateUser users req.username req.password = false then ⟨401, none, s⟩
      else
        let token := (generateToken s entropy).1
        ⟨200, some token, addToken s token now⟩

/-- C6: a POST login whose (non-empty) credentials fail validation is answered
with 401 and leaves the token store exactly as it was: no token is generated
and registered. -/
theorem login_invalid_creds (users : List UserCred) (req : LoginRequest)
    (s : TokenStore) (entropy : List Nat) (now : Int)
    (h1 : req.username ≠ "") (h2 : req.password ≠ "")
    (h3 : validateUser users req.username req.password = false) :
    (loginHandler "POST" (some req) users s entropy now).status = 401 ∧
    (loginHandler "POST" (some req) users s entropy now).store = s := by
  simp [loginHandler, h1, h2, h3]

theorem login_invalid_creds_witness :
    ("admin" : String) ≠ "" ∧ ("wrong" : String) ≠ "" ∧
    validateUser [⟨"admin", "admin123"⟩] "admin" "wrong" = false ∧
    ((loginHandler "POST" (some ⟨"admin", "wrong"⟩) [⟨"admin", "admin123"⟩]
        [("tok", (7 : Int))] [1, 2] 0).status = 401 ∧
     (loginHandler "POST" (some ⟨"admin", "wrong"⟩) [⟨"admin", "admin123"⟩]
        [("tok", (7 : Int))] [1, 2] 0).store = [("tok", (7 : Int))]) :=
  ⟨by decide, by decide, by decide,
   login_invalid_creds [⟨"admin", "admin123"⟩] ⟨"admin", "wrong"⟩
     [("tok", 7)] [1, 2] 0 (by decide) (by decide) (by decide)⟩

end FilmApi
